import Mathlib

/-!
Shallow embedding of the event-dispatch and WASM execution core of
w3bstream, translated from the Go sources:

* `pkg/modules/event` (`OnEventReceived`, `publisherVerification`);
* `pkg/modules/vm/wasmtime/instance_exports.go` (`ExportFuncs` host ABI);
* `pkg/modules/vm` instance registry (`AddInstance`, `DelInstance`,
  `StartInstance`, `StopInstance`, `GetInstanceState`);
* `pkg/modules/vm/wasmapi/async/processor.go` (`ApiCallProcessor.ProcessTask`).

Byte strings are `List Nat`; Go maps are association lists; machine
integers are `Int`/`Nat` with explicit reduction modulo 2^32 where a Go
cast occurs.  External collaborators whose code is not in the extracted
sources (JWT parsing, the strategy resolver, the KV store, the HTTP
router) are either parameters of the embedded functions or are modelled
from the spec, as noted on each definition.
-/

namespace W3b

/-- Opaque byte strings crossing the host/guest boundary. -/
abbrev Bytes := List Nat

/-! ## Status codes

The `wasm.ResultStatusCode` constants.  Modelled from the spec: the
constant declarations live in `pkg/types/wasm` which is not among the
extracted sources; the spec fixes the registry
`OK=0, Failed=-1, ResourceNotFound=-2, TransDataFromVMFailed=-3,
TransDataToVMFailed=-4, NoDBContext=-5, EnvKeyNotFound=-6, HostInternal=-7`. -/

def ResultStatusCode_OK : Int := 0

def ResultStatusCode_Failed : Int := -1

def ResultStatusCode_ResourceNotFound : Int := -2

def ResultStatusCode_TransDataFromVMFailed : Int := -3

def ResultStatusCode_TransDataToVMFailed : Int := -4

def ResultStatusCode_NoDBContext : Int := -5

def ResultStatusCode_EnvKeyNotFound : Int := -6

def ResultStatusCode_HostInternal : Int := -7

/-- Go's `uint32(x)` cast applied to a (possibly negative) integer. -/
def toUInt32 (x : Int) : Nat := (x % (2 ^ 32)).toNat

/-! ## Association-list maps

`mapx.Map` (a thread-safe map from the `depends/x/mapx` support library)
and Go's built-in maps are modelled as association lists where a `Store`
prepends and a `Load` takes the first binding. -/

/-- `mapx.Map.Store` / map assignment. -/
def mapStore {α β : Type} (m : List (α × β)) (k : α) (v : β) : List (α × β) :=
  (k, v) :: m

/-- `mapx.Map.Load` / map lookup. -/
def mapLoad {α β : Type} [BEq α] (m : List (α × β)) (k : α) : Option β :=
  m.lookup k

/-! ## Instance lifecycle and registry (package `vm`) -/

/-- `wasm.InstanceState`. -/
inductive InstanceState
  | created
  | started
  | stopped
  | destroyed
deriving DecidableEq, Repr

/-- A live WASM instance as seen by the registry: the only parts of the
`wasm.Instance` interface the registry code consults are `State()` and
`Stop()`. -/
structure Instance where
  state : InstanceState
deriving DecidableEq, Repr

/-- `Instance.State()`. -/
def Instance.State (i : Instance) : InstanceState := i.state

/-- Modelled from the spec: the `wasm.Instance` implementation is not in
the extracted sources; the spec's lifecycle state machine defines
`Stop` as the transition `STARTED → STOPPED`. -/
def Instance.Stop (i : Instance) : Instance := { i with state := .stopped }

/-- The process-wide `instances` map, keyed by the `uint32` uuid id. -/
abbrev Registry := List (Nat × Instance)

/-- `vm.AddInstance`: store under a freshly minted id (the id is a
parameter here; `uuid.New().ID()` is an external effect). -/
def AddInstance (reg : Registry) (id : Nat) (i : Instance) : Registry :=
  mapStore reg id i

/-- `mapx.Map.LoadAndRemove`: return the binding and delete it. -/
def mapLoadAndRemove (m : Registry) (id : Nat) : Option Instance × Registry :=
  (mapLoad m id, m.filter (fun p => p.1 != id))

/-- `vm.DelInstance`: `LoadAndRemove` first, then `Stop()` when the
removed instance was `STARTED`.  The second component is the removed
instance in its final state (the object the Go code still holds after
deletion); the error result is always `nil`, so it is omitted. -/
def DelInstance (reg : Registry) (id : Nat) : Registry × Option Instance :=
  let lr := mapLoadAndRemove reg id
  match lr.1 with
  | none => (lr.2, none)
  | some i => (lr.2, some (if i.State = .started then i.Stop else i))

/-- `vm.StartInstance`: the body is literally `return nil`. -/
def StartInstance (reg : Registry) (_id : Nat) : Registry × Option String :=
  (reg, none)

/-- `vm.StopInstance`: the body is literally `return nil`. -/
def StopInstance (reg : Registry) (_id : Nat) : Registry × Option String :=
  (reg, none)

/-- `vm.GetInstanceState`: returns `(wasm.InstanceState_Stopped, true)`
unconditionally, ignoring both the id and the registry. -/
def GetInstanceState (_id : Nat) : InstanceState × Bool :=
  (.stopped, true)

/-! ## Host ABI (`wasmtime.ExportFuncs`)

The `Runtime` read/copy primitives (`rt.Read`, `rt.Copy`), the KV store,
the environment map and the in-process API server are fields of the
state record.  `rtRead ptr size = none` models a failed (out-of-bounds)
`rt.Read`; `rtCopyOK buf p q = false` models a failed `rt.Copy`.  An ABI
call that copies data out to the guest returns the copied bytes as an
`Option Bytes` observation next to its `int32` status code. -/

/-- The per-instance host-ABI state and collaborators of
`wasmtime.ExportFuncs`.  `res` is the `mapx.Map[uint32,[]byte]` resource
map; `kvs` (modelled from the spec: the `wasm.KVStore` implementation is
not in the extracted sources; the spec describes KV lookup and upsert)
is keyed by the raw key bytes since Go's `string(key)` conversion is
byte-preserving; `kvsSetOK` models the error result of `kvs.Set`;
`env` is the project env map (`nil` when absent); `srvCall` is the
in-process API server `srv.Call` composed with `json.Marshal` of its
response, which cannot fail on the `HttpResponse` struct. -/
structure ExportFuncs where
  res : List (Nat × Bytes)
  kvs : List (Bytes × Bytes)
  kvsSetOK : Bytes → Bytes → Bool
  env : Option (List (Bytes × Bytes))
  rtRead : Int → Int → Option Bytes
  rtCopyOK : Bytes → Int → Int → Bool
  srvCall : Bytes → Bytes

/-- `ExportFuncs.GetData(rid, vmAddrPtr, vmSizePtr)`: load
`res[uint32(rid)]`, copy it out.  Observation: status code and the bytes
copied to the guest. -/
def ExportFuncs.GetData (ef : ExportFuncs) (rid vmAddrPtr vmSizePtr : Int) :
    Int × Option Bytes :=
  match mapLoad ef.res (toUInt32 rid) with
  | none => (ResultStatusCode_ResourceNotFound, none)
  | some data =>
    if ef.rtCopyOK data vmAddrPtr vmSizePtr then
      (ResultStatusCode_OK, some data)
    else
      (ResultStatusCode_TransDataToVMFailed, none)

/-- `ExportFuncs.SetData(rid, addr, size)`: read the guest range and
store it under `uint32(rid)`.  Returns the status code and the updated
state. -/
def ExportFuncs.SetData (ef : ExportFuncs) (rid addr size : Int) :
    Int × ExportFuncs :=
  match ef.rtRead addr size with
  | none => (ResultStatusCode_TransDataToVMFailed, ef)
  | some buf => (ResultStatusCode_OK, { ef with res := mapStore ef.res (toUInt32 rid) buf })

/-- `ExportFuncs.GetDB(kAddr, kSize, vmAddrPtr, vmSizePtr)`: read the
key from guest memory, look it up in the KV store, copy the value out. -/
def ExportFuncs.GetDB (ef : ExportFuncs) (kAddr kSize vmAddrPtr vmSizePtr : Int) :
    Int × Option Bytes :=
  match ef.rtRead kAddr kSize with
  | none => (ResultStatusCode_ResourceNotFound, none)
  | some key =>
    match mapLoad ef.kvs key with
    | none => (ResultStatusCode_ResourceNotFound, none)
    | some val =>
      if ef.rtCopyOK val vmAddrPtr vmSizePtr then
        (ResultStatusCode_OK, some val)
      else
        (ResultStatusCode_TransDataToVMFailed, none)

/-- `ExportFuncs.SetDB(kAddr, kSize, vAddr, vSize)`: read key and value
from guest memory and upsert into the KV store. -/
def ExportFuncs.SetDB (ef : ExportFuncs) (kAddr kSize vAddr vSize : Int) :
    Int × ExportFuncs :=
  match ef.rtRead kAddr kSize with
  | none => (ResultStatusCode_ResourceNotFound, ef)
  | some key =>
    match ef.rtRead vAddr vSize with
    | none => (ResultStatusCode_ResourceNotFound, ef)
    | some val =>
      if ef.kvsSetOK key val then
        (ResultStatusCode_OK, { ef with kvs := mapStore ef.kvs key val })
      else
        (ResultStatusCode_Failed, ef)

/-- `ExportFuncs.GetEnv(kAddr, kSize, vmAddrPtr, vmSizePtr)`. -/
def ExportFuncs.GetEnv (ef : ExportFuncs) (kAddr kSize vmAddrPtr vmSizePtr : Int) :
    Int × Option Bytes :=
  match ef.env with
  | none => (ResultStatusCode_EnvKeyNotFound, none)
  | some envm =>
    match ef.rtRead kAddr kSize with
    | none => (ResultStatusCode_TransDataToVMFailed, none)
    | some key =>
      match mapLoad envm key with
      | none => (ResultStatusCode_EnvKeyNotFound, none)
      | some val =>
        if ef.rtCopyOK val vmAddrPtr vmSizePtr then
          (ResultStatusCode_OK, some val)
        else
          (ResultStatusCode_TransDataToVMFailed, none)

/-- `ExportFuncs.ApiCall(kAddr, kSize, vmAddrPtr, vmSizePtr)`: read the
request envelope, call the in-process API server, copy the marshalled
response out. -/
def ExportFuncs.ApiCall (ef : ExportFuncs) (kAddr kSize vmAddrPtr vmSizePtr : Int) :
    Int × Option Bytes :=
  match ef.rtRead kAddr kSize with
  | none => (ResultStatusCode_TransDataFromVMFailed, none)
  | some buf =>
    let respJson := ef.srvCall buf
    if ef.rtCopyOK respJson vmAddrPtr vmSizePtr then
      (ResultStatusCode_OK, some respJson)
    else
      (ResultStatusCode_TransDataToVMFailed, none)

/-! ## Event dispatcher (package `event`)

`OnEventReceived(ctx, projectName, r)` and `publisherVerification`.
External collaborators reached through the context or other packages
(JWT parsing from `depends/conf/jwt`, `publisher.GetPublisherByPubKeyAndProjectName`,
`strategy.FindStrategyInstances`, `vm.GetConsumer` and the instances'
`HandleEvent`) are fields of a `DispatchDeps` record. -/

/-- Errors surfaced by the dispatch path.  `msg` is `errors.New`;
the three `status` errors are the `pkg/errors/status` sentinel values
used by `publisherVerification` (`errorString` renders each via its
`Error()` text, modelled by its key). -/
inductive Err
  | msg (s : String)
  | invalidAuthValue
  | invalidAuthProjectID
  | noProjectPermission
deriving DecidableEq, Repr

/-- `err.Error()`. -/
def Err.errorString : Err → String
  | .msg s => s
  | .invalidAuthValue => "InvalidAuthValue"
  | .invalidAuthProjectID => "InvalidAuthPorjectID"
  | .noProjectPermission => "NoProjectPermission"

/-- The payload of a parsed JWT claim: the code distinguishes only
whether `claim.Payload` is a string. -/
inductive ClaimPayload
  | str (s : String)
  | other
deriving DecidableEq, Repr

/-- A parsed JWT claim (`jwt.Claims`); only `Payload` is consulted. -/
structure JwtClaim where
  payload : ClaimPayload
deriving DecidableEq, Repr

/-- `eventpb.Event.Header`.  The Go field is a nullable pointer, but
`OnEventReceived` dereferences `r.Header.EventId` before any nil check,
so only events with a non-nil header reach the embedded logic; the
header is therefore embedded as a plain field. -/
structure EventHeader where
  eventId : String
  eventType : String
  pubId : String
  token : String
deriving DecidableEq, Repr

/-- `eventpb.Event`. -/
structure Event where
  header : EventHeader
  payload : String
deriving DecidableEq, Repr

/-- `wasm.EventHandleResult`. -/
structure EventHandleResult where
  instanceID : String
  code : Int
  errMsg : String
deriving DecidableEq, Repr

/-- `event.HandleEventResult`. -/
structure HandleEventResult where
  projectName : String
  pubID : Nat
  pubName : String
  eventID : String
  errMsg : String
  wasmResults : List EventHandleResult
deriving DecidableEq, Repr

/-- `strategy.InstanceHandler`: the `(instanceID, handler)` pair the
resolver returns per matched strategy. -/
structure InstanceHandler where
  instanceID : Nat
  handler : String
deriving DecidableEq, Repr

/-- `models.Publisher`: the two fields `OnEventReceived` reads. -/
structure Publisher where
  publisherID : Nat
  name : String
deriving DecidableEq, Repr

/-- A registered consumer instance as seen by the dispatcher
(`vm.GetConsumer`'s result): only `HandleEvent(ctx, handler, payload)`
is invoked on it.  The result is an `Option` because the Go method
returns a pointer, which the collection loop checks against `nil`. -/
structure Consumer where
  handleEvent : String → String → Option EventHandleResult

/-- `enums.EVENTTYPEDEFAULT` (the declaration is in `pkg/enums`, not in
the extracted sources; the spec calls it `DEFAULT`). -/
def EVENTTYPEDEFAULT : String := "DEFAULT"

/-- The event type `OnEventReceived` resolves strategies for: the
header's `event_type` when non-empty, else `EVENTTYPEDEFAULT`. -/
def effectiveEventType (r : Event) : String :=
  if r.header.eventType ≠ "" then r.header.eventType else EVENTTYPEDEFAULT

/-- External collaborators of `OnEventReceived`, threaded through the Go
context: the project record resolved for this call, JWT parsing
(`jwt.ParseToken`, from `depends/conf/jwt`, modelled from the spec as a
fallible parse), `types.SFID.UnmarshalText` (decimal u64 parse, modelled
as a fallible parse), publisher lookup, the strategy resolver and the
instance registry lookup. -/
structure DispatchDeps where
  projectID : Nat
  parseToken : String → Except Err JwtClaim
  parseSFID : String → Option Nat
  getPublisher : String → String → Except Err Publisher
  findStrategyInstances : String → String → Except Err (List InstanceHandler)
  getConsumer : Nat → Option Consumer

/-- `event.publisherVerification(ctx, r, l)`: `some e` is a non-nil
error return.  The Go nil-header branch is unreachable here (see
`EventHeader`), leaving the empty-token check. -/
def publisherVerification (d : DispatchDeps) (r : Event) : Option Err :=
  if r.header.token = "" then
    some (.msg "message token is invalid")
  else
    match d.parseToken r.header.token with
    | .error e => some e
    | .ok claim =>
      match claim.payload with
      | .other => some .invalidAuthValue
      | .str v =>
        match d.parseSFID v with
        | none => some .invalidAuthProjectID
        | some projectID =>
          if projectID = d.projectID then none
          else some .noProjectPermission

/-- The fan-out loop of `OnEventReceived`: one result per matched
handler is sent on the `res` channel — a synthetic
`{code:-1, errMsg:"instance not found"}` when the registry lookup
returns nil, otherwise the instance's `HandleEvent` result.  Channel
completion order is nondeterministic in Go; the embedding fixes the
handler order, which the claims (counting and emptiness) do not
distinguish. -/
def dispatchResults (d : DispatchDeps) (handlers : List InstanceHandler)
    (payload : String) : List (Option EventHandleResult) :=
  handlers.map fun v =>
    match d.getConsumer v.instanceID with
    | none => some ⟨toString v.instanceID, -1, "instance not found"⟩
    | some c => c.handleEvent v.handler payload

/-- The body of `OnEventReceived` before the deferred error-message
assignment.  Returns the `(ret, err)` pair.  Note the publisher-lookup
miss branch: the Go code binds the lookup error to a fresh variable `e`
and executes a naked `return` without assigning the named result `err`,
so it returns `(ret, nil)`. -/
def onEventCore (d : DispatchDeps) (projectName : String) (r : Event) :
    HandleEventResult × Option Err :=
  let ret0 : HandleEventResult :=
    { projectName := projectName, pubID := 0, pubName := "",
      eventID := r.header.eventId, errMsg := "", wasmResults := [] }
  match publisherVerification d r with
  | some e => (ret0, some e)
  | none =>
    let pubStep : Except Unit HandleEventResult :=
      if r.header.pubId ≠ "" then
        match d.getPublisher r.header.pubId projectName with
        | .error _ => .error ()
        | .ok pub => .ok { ret0 with pubID := pub.publisherID, pubName := pub.name }
      else .ok ret0
    match pubStep with
    | .error _ => (ret0, none)
    | .ok ret1 =>
      match d.findStrategyInstances projectName (effectiveEventType r) with
      | .error e => (ret1, some e)
      | .ok handlers =>
        let collected := (dispatchResults d handlers r.payload).reduceOption
        ({ ret1 with wasmResults := collected }, none)

/-- `event.OnEventReceived(ctx, projectName, r)`: the core body followed
by the deferred `if err != nil { ret.ErrMsg = err.Error() }`. -/
def OnEventReceived (d : DispatchDeps) (projectName : String) (r : Event) :
    HandleEventResult × Option Err :=
  match onEventCore d projectName r with
  | (ret, some e) => ({ ret with errMsg := e.errorString }, some e)
  | (ret, none) => (ret, none)

/-! ## Async API broker request worker (`async.ApiCallProcessor.ProcessTask`)

The worker dequeues an `api_call` task, decodes its payload, replays the
HTTP request through the in-process router, and enqueues an `api_result`
task carrying the response — unless the original request lacks the
`eventType` header.  JSON decoding, `http.NewRequest` validation, the
router and `asynq` enqueueing are fields of a `ProcessorDeps` record. -/

/-- `apitypes.HttpRequest`. -/
structure HttpRequest where
  method : String
  url : String
  header : List (String × List String)
  body : Bytes
deriving DecidableEq, Repr

/-- `apitypes.HttpResponse`. -/
structure HttpResponse where
  status : String
  statusCode : Int
  proto : String
  header : List (String × List String)
  body : Bytes
deriving DecidableEq, Repr

/-- The fields of the `api_call` task payload (`apiCallPayload`) the
worker reads: the owning project's name and the serialized request. -/
structure ApiCallPayload where
  projectName : String
  data : Bytes
deriving DecidableEq, Repr

/-- An `api_result` task (`newApiResultTask(projectName, eventType, data)`). -/
structure ApiResultTask where
  projectName : String
  eventType : String
  data : Bytes
deriving DecidableEq, Repr

/-- The outcome of `ProcessTask`: `ok` is a nil error; `skipRetry r` is
a non-nil error wrapping `asynq.SkipRetry` (every error path of
`ApiCallProcessor.ProcessTask` wraps `SkipRetry`); the reason records
which `fmt.Errorf` produced it. -/
inductive TaskResult
  | ok
  | skipRetry (reason : String)
deriving DecidableEq, Repr

/-- `net/textproto.CanonicalMIMEHeaderKey` character folding: uppercase
at the start and after each hyphen, lowercase elsewhere.  (Go returns
keys containing invalid token characters unchanged; the keys in play
here are plain alphanumeric tokens.) -/
def canonChars : Bool → List Char → List Char
  | _, [] => []
  | up, c :: cs => (if up then c.toUpper else c.toLower) :: canonChars (c = '-') cs

/-- `net/textproto.CanonicalMIMEHeaderKey`. -/
def canonicalMIMEHeaderKey (s : String) : String :=
  String.mk (canonChars true s.data)

/-- Character-wise lowercase of a header key, used to state that a
request lacks a header under every capitalization. -/
def lowerKey (s : String) : String :=
  String.mk (s.data.map Char.toLower)

/-- `http.Header.Get(k)`: canonicalize the query key, return the first
value stored under it, or `""`.  Stored keys are not canonicalized by
`Get`; the processor assigns `req.Header = apiReq.Header` verbatim. -/
def headerGet (h : List (String × List String)) (k : String) : String :=
  match mapLoad h (canonicalMIMEHeaderKey k) with
  | some (v :: _) => v
  | _ => ""

/-- Go map assignment `h[k] = v` on an association list. -/
def headerUpsert (h : List (String × List String)) (k : String)
    (v : List String) : List (String × List String) :=
  (k, v) :: h.filter (fun p => p.1 != k)

/-- The response-header merge loop of `ProcessTask`: every original
request header except `Content-Type` is written into the response
header. -/
def mergeRespHeader (resp req : List (String × List String)) :
    List (String × List String) :=
  req.foldl
    (fun acc p => if p.1 = "Content-Type" then acc else headerUpsert acc p.1 p.2)
    resp

/-- External collaborators of `ApiCallProcessor.ProcessTask`:
`json.Unmarshal` into `apiCallPayload` and into `apitypes.HttpRequest`,
`http.NewRequest` validation of method/url, the gin router
(`router.ServeHTTP` through an `httptest` recorder — total: the recorder
always yields a response whose body reads without error),
`json.Marshal` of the response struct (total: marshalling
`apitypes.HttpResponse` cannot fail), `newApiResultTask` (fallible:
it marshals its payload) and the `asynq` client enqueue. -/
structure ProcessorDeps where
  unmarshalPayload : Bytes → Option ApiCallPayload
  unmarshalRequest : Bytes → Option HttpRequest
  newRequestOK : String → String → Bool
  router : HttpRequest → HttpResponse
  marshalResp : HttpResponse → Bytes
  newApiResultTask : String → String → Bytes → Option ApiResultTask
  enqueueOK : ApiResultTask → Bool

/-- `ApiCallProcessor.ProcessTask(ctx, t)`: returns its error outcome
and the list of `api_result` tasks it enqueued. -/
def ProcessTask (d : ProcessorDeps) (taskPayload : Bytes) :
    TaskResult × List ApiResultTask :=
  match d.unmarshalPayload taskPayload with
  | none => (.skipRetry "json.Unmarshal failed", [])
  | some payload =>
    match d.unmarshalRequest payload.data with
    | none => (.skipRetry "http.ReadRequest failed", [])
    | some apiReq =>
      if ¬ d.newRequestOK apiReq.method apiReq.url then
        (.skipRetry "http.ReadRequest failed", [])
      else
        let resp := d.router apiReq
        let apiResp : HttpResponse :=
          { resp with header := mergeRespHeader resp.header apiReq.header }
        let apiRespJson := d.marshalResp apiResp
        let eventType := headerGet apiReq.header "eventType"
        if eventType = "" then
          (.skipRetry "miss eventType", [])
        else
          match d.newApiResultTask payload.projectName eventType apiRespJson with
          | none => (.skipRetry "new api result task failed", [])
          | some task =>
            if d.enqueueOK task then (.ok, [task])
            else (.skipRetry "could not enqueue task", [])

/-! ## Concrete fixtures

Closed states and collaborator records used by the counterexamples and
witnesses below. -/

/-- A host-ABI state whose every `rt.Read` fails with a bounds
violation. -/
def efReadFail : ExportFuncs :=
  { res := [], kvs := [], kvsSetOK := fun _ _ => true, env := some [],
    rtRead := fun _ _ => none, rtCopyOK := fun _ _ _ => true,
    srvCall := fun _ => [] }

/-- The host-ABI state used by the round-trip witnesses: one readable
guest range holding `[7, 8]` at address 0, `[1]` elsewhere, with all
copies succeeding. -/
def efRoundTrip : ExportFuncs :=
  { res := [], kvs := [], kvsSetOK := fun _ _ => true, env := some [],
    rtRead := fun addr _ => if addr = 0 then some [7, 8] else some [1],
    rtCopyOK := fun _ _ _ => true,
    srvCall := fun _ => [] }

/-- Dispatch collaborators for which authentication and publisher
resolution succeed, two strategies match, and no matched instance is
registered. -/
def dFanOut : DispatchDeps :=
  { projectID := 7,
    parseToken := fun _ => .ok ⟨.str "x"⟩,
    parseSFID := fun _ => some 7,
    getPublisher := fun _ _ => .ok ⟨9, "pub"⟩,
    findStrategyInstances := fun _ _ => .ok [⟨11, "start"⟩, ⟨12, "start"⟩],
    getConsumer := fun _ => none }

/-- An authenticated event carrying a non-empty `pub_id`. -/
def evFanOut : Event := { header := ⟨"e1", "ANY", "pubkey", "tok"⟩, payload := "hi" }

/-- Dispatch collaborators for which authentication succeeds but the
publisher lookup fails. -/
def dPubMiss : DispatchDeps :=
  { projectID := 7,
    parseToken := fun _ => .ok ⟨.str "x"⟩,
    parseSFID := fun _ => some 7,
    getPublisher := fun _ _ => .error (.msg "publisher not found"),
    findStrategyInstances := fun _ _ => .ok [⟨11, "start"⟩],
    getConsumer := fun _ => none }

/-- Dispatch collaborators for an unauthenticated event. -/
def dAuth : DispatchDeps :=
  { projectID := 7,
    parseToken := fun _ => .error (.msg "token parse failed"),
    parseSFID := fun _ => none,
    getPublisher := fun _ _ => .error (.msg "not found"),
    findStrategyInstances := fun _ _ => .ok [⟨11, "start"⟩],
    getConsumer := fun _ => none }

/-- An event whose token is empty. -/
def evEmptyToken : Event := { header := ⟨"e1", "ANY", "", ""⟩, payload := "" }

/-- Processor collaborators whose decode stages succeed on a request
that carries no `eventType` header. -/
def dNoEventType : ProcessorDeps :=
  { unmarshalPayload := fun _ => some ⟨"prj", [1]⟩,
    unmarshalRequest := fun _ => some ⟨"GET", "http:", [("Foo", ["bar"])], []⟩,
    newRequestOK := fun _ _ => true,
    router := fun _ => ⟨"200 OK", 200, "HTTP/1.1", [], []⟩,
    marshalResp := fun _ => [],
    newApiResultTask := fun pn et dt => some ⟨pn, et, dt⟩,
    enqueueOK := fun _ => true }

/-! ## Supporting lemmas -/

theorem mapLoad_store_self {α β : Type} [BEq α] [ReflBEq α]
    (m : List (α × β)) (k : α) (v : β) :
    mapLoad (mapStore m k v) k = some v := by
  simp [mapLoad, mapStore, List.lookup]

theorem mapLoad_store_ne {α β : Type} [BEq α] [LawfulBEq α]
    (m : List (α × β)) (k k' : α) (v : β) (h : k' ≠ k) :
    mapLoad (mapStore m k v) k' = mapLoad m k' := by
  simp only [mapLoad, mapStore, List.lookup]
  rw [show (k' == k) = false by simpa using h]

theorem lookup_filter_ne_none (reg : Registry) (id : Nat) :
    mapLoad (reg.filter (fun p => p.1 != id)) id = none := by
  induction reg with
  | nil => rfl
  | cons p t ih =>
    by_cases h : p.1 = id
    · simpa [mapLoad, List.filter, h] using ih
    · simp only [mapLoad, List.filter] at ih ⊢
      rw [show (p.1 != id) = true by simpa using h]
      simp only [List.lookup]
      rw [show (id == p.1) = false by simpa using fun e => h e.symm]
      exact ih

theorem mapLoad_eq_none_of_forall_ne {α β : Type} [BEq α] [LawfulBEq α]
    (m : List (α × β)) (k : α) (hk : ∀ p ∈ m, p.1 ≠ k) :
    mapLoad m k = none := by
  induction m with
  | nil => rfl
  | cons p t ih =>
    simp only [mapLoad, List.lookup]
    rw [show (k == p.1) = false by
      simpa using fun e => (hk p (List.mem_cons_self p t)) e.symm]
    exact ih fun q hq => hk q (List.mem_cons_of_mem _ hq)

theorem reduceOption_length_of_isSome {α : Type} (l : List (Option α))
    (h : ∀ x ∈ l, x.isSome) : l.reduceOption.length = l.length := by
  induction l with
  | nil => rfl
  | cons a t ih =>
    cases a with
    | some x =>
      simp only [List.reduceOption_cons_of_some, List.length_cons]
      exact congrArg (· + 1) (ih fun x hx => h x (List.mem_cons_of_mem _ hx))
    | none => exact absurd (h none (List.mem_cons_self _ _)) (by simp)

theorem toUInt32_inj_of_int32 (x y : Int)
    (hx : -(2 ^ 31) ≤ x ∧ x < 2 ^ 31) (hy : -(2 ^ 31) ≤ y ∧ y < 2 ^ 31)
    (h : toUInt32 x = toUInt32 y) : x = y := by
  unfold toUInt32 at h
  omega

/-! ## Claim theorems -/

/-- C10: for every instance id, including ids never registered via
`AddInstance` and ids already removed, `GetInstanceState id` returns the
pair `(InstanceState_Stopped, true)`; it never reports `CREATED`,
`STARTED` or `DESTROYED` and never reports absence. -/
theorem claim_C10_getInstanceState_constant :
    ∀ id : Nat, GetInstanceState id = (InstanceState.stopped, true) :=
  fun _ => rfl

/-- C6: contrary to the claim that `StartInstance` transitions
`CREATED|STOPPED → STARTED`, the code's `StartInstance` is a no-op that
returns `nil` and leaves the registry — hence every instance's state —
unchanged; in particular an instance in `CREATED` stays `CREATED`. -/
theorem claim_C6_startInstance_noop :
    (∀ (reg : Registry) (id : Nat), StartInstance reg id = (reg, none)) ∧
    mapLoad (StartInstance [(42, Instance.mk .created)] 42).1 42 =
      some (Instance.mk .created) :=
  ⟨fun _ _ => rfl, rfl⟩

/-- C5 counterexample: removing a `STARTED` instance leaves the removed
instance in state `STOPPED`, never `DESTROYED` — refuting the claimed
`STOPPED`-then-`DESTROYED` transition sequence. -/
theorem claim_C5_counterexample :
    (DelInstance [(1, Instance.mk .started)] 1).2 =
      some (Instance.mk .stopped) ∧
    Instance.mk InstanceState.stopped ≠ Instance.mk InstanceState.destroyed :=
  ⟨rfl, by decide⟩

/-- C5 (amended): `DelInstance id` removes the registry entry first
(`LoadAndRemove`), then calls `Stop` — transitioning `STARTED` to
`STOPPED` — on the removed instance if it was `STARTED` (otherwise it is
left as is); no `DESTROYED` transition occurs; after `DelInstance`
returns no instance is observable in the registry under that id. -/
theorem claim_C5_remove_behavior (reg : Registry) (id : Nat) :
    mapLoad (DelInstance reg id).1 id = none ∧
    (∀ i, mapLoad reg id = some i → i.State = .started →
      (DelInstance reg id).2 = some i.Stop ∧ i.Stop.state = .stopped) ∧
    (∀ i, mapLoad reg id = some i → i.State ≠ .started →
      (DelInstance reg id).2 = some i) := by
  refine ⟨?_, ?_, ?_⟩
  · cases h : mapLoad reg id <;>
      simp [DelInstance, mapLoadAndRemove, h, lookup_filter_ne_none]
  · intro i hi hs
    simp [DelInstance, mapLoadAndRemove, hi, hs, Instance.Stop]
  · intro i hi hs
    simp [DelInstance, mapLoadAndRemove, hi, hs]

/-- C5 witness: concrete registry holding one `STARTED` instance. -/
theorem claim_C5_remove_behavior_witness :
    mapLoad (DelInstance [(5, Instance.mk .started)] 5).1 5 = none ∧
    (DelInstance [(5, Instance.mk .started)] 5).2 =
      some (Instance.mk .started).Stop := by
  obtain ⟨h1, h2, _⟩ := claim_C5_remove_behavior [(5, Instance.mk .started)] 5
  exact ⟨h1, (h2 (Instance.mk .started) rfl rfl).1⟩

/-- C4 counterexample: `set_data` — one of the functions the claim
covers — returns `TransDataToVMFailed` (-4), not
`TransDataFromVMFailed` (-3), when its `rt.Read` fails. -/
theorem claim_C4_counterexample :
    (efReadFail.SetData 0 0 0).1 = ResultStatusCode_TransDataToVMFailed ∧
    ResultStatusCode_TransDataToVMFailed ≠ ResultStatusCode_TransDataFromVMFailed :=
  ⟨rfl, by decide⟩

/-- C4 (amended): when the runtime `Read` of a guest range fails with a
bounds violation, `api_call` returns `TransDataFromVMFailed` (-3), but
`set_data` and `get_env` return `TransDataToVMFailed` (-4) and `get_db`
and `set_db` return `ResourceNotFound` (-2). -/
theorem claim_C4_read_failure_codes (ef : ExportFuncs) (p q a b : Int)
    (h : ef.rtRead p q = none) :
    (ef.SetData 0 p q).1 = ResultStatusCode_TransDataToVMFailed ∧
    (ef.GetDB p q a b).1 = ResultStatusCode_ResourceNotFound ∧
    (ef.SetDB p q a b).1 = ResultStatusCode_ResourceNotFound ∧
    (ef.env ≠ none → (ef.GetEnv p q a b).1 = ResultStatusCode_TransDataToVMFailed) ∧
    (ef.ApiCall p q a b).1 = ResultStatusCode_TransDataFromVMFailed := by
  refine ⟨?_, ?_, ?_, ?_, ?_⟩
  · simp [ExportFuncs.SetData, h]
  · simp [ExportFuncs.GetDB, h]
  · simp [ExportFuncs.SetDB, h]
  · intro he
    cases hv : ef.env with
    | none => exact absurd hv he
    | some envm => simp [ExportFuncs.GetEnv, hv, h]
  · simp [ExportFuncs.ApiCall, h]

/-- C4 witness: the concrete failing-read state. -/
theorem claim_C4_read_failure_codes_witness :
    (efReadFail.ApiCall 0 0 0 0).1 = ResultStatusCode_TransDataFromVMFailed ∧
    (efReadFail.SetData 0 0 0).1 = ResultStatusCode_TransDataToVMFailed ∧
    (efReadFail.GetDB 0 0 0 0).1 = ResultStatusCode_ResourceNotFound := by
  obtain ⟨h1, h2, _, _, h5⟩ := claim_C4_read_failure_codes efReadFail 0 0 0 0 rfl
  exact ⟨h5, h1, h2⟩

/-- C7: on a single instance, a successful `set_data(rid, v)` followed
by `get_data(rid)` copies out exactly `v`, and `set_data` on one rid
never changes what `get_data` observes on any other rid: for `int32`
rids, distinct rids map to distinct `uint32` resource keys, so
independent rids do not alias. -/
theorem claim_C7_set_get_data_roundtrip (ef : ExportFuncs)
    (rid rid' addr size a b a' b' : Int) (v : Bytes)
    (hrid : -(2 ^ 31) ≤ rid ∧ rid < 2 ^ 31)
    (hrid' : -(2 ^ 31) ≤ rid' ∧ rid' < 2 ^ 31)
    (hne : rid' ≠ rid)
    (hread : ef.rtRead addr size = some v)
    (hcopy : ∀ data p q, ef.rtCopyOK data p q = true) :
    (ef.SetData rid addr size).1 = ResultStatusCode_OK ∧
    (ef.SetData rid addr size).2.GetData rid a b = (ResultStatusCode_OK, some v) ∧
    (ef.SetData rid addr size).2.GetData rid' a' b' = ef.GetData rid' a' b' := by
  have hkey : toUInt32 rid' ≠ toUInt32 rid := fun h =>
    hne (toUInt32_inj_of_int32 rid' rid hrid' hrid h)
  refine ⟨?_, ?_, ?_⟩
  · simp [ExportFuncs.SetData, hread]
  · simp [ExportFuncs.SetData, ExportFuncs.GetData, hread,
      mapLoad_store_self, hcopy]
  · simp only [ExportFuncs.SetData, ExportFuncs.GetData, hread]
    rw [mapLoad_store_ne ef.res (toUInt32 rid) (toUInt32 rid') v hkey]

/-- C7 witness: `set_data 0` then `get_data 0` yields the written bytes
and leaves `get_data 1` unchanged. -/
theorem claim_C7_set_get_data_roundtrip_witness :
    (efRoundTrip.SetData 0 0 4).1 = ResultStatusCode_OK ∧
    (efRoundTrip.SetData 0 0 4).2.GetData 0 9 9 =
      (ResultStatusCode_OK, some [7, 8]) ∧
    (efRoundTrip.SetData 0 0 4).2.GetData 1 9 9 = efRoundTrip.GetData 1 9 9 :=
  claim_C7_set_get_data_roundtrip efRoundTrip 0 1 0 4 9 9 9 9 [7, 8]
    (by decide) (by decide) (by decide) rfl (fun _ _ _ => rfl)

/-- C8: on the same instance, a successful `set_db(k, v)` followed by
`get_db(k)` with no intervening write to `k` returns status `OK` and
copies out bytes equal to `v`. -/
theorem claim_C8_set_get_db_roundtrip (ef : ExportFuncs)
    (kA kS vA vS kA2 kS2 a b : Int) (k v : Bytes)
    (hk : ef.rtRead kA kS = some k)
    (hv : ef.rtRead vA vS = some v)
    (hset : ef.kvsSetOK k v = true)
    (hk2 : ef.rtRead kA2 kS2 = some k)
    (hcopy : ∀ data p q, ef.rtCopyOK data p q = true) :
    (ef.SetDB kA kS vA vS).1 = ResultStatusCode_OK ∧
    (ef.SetDB kA kS vA vS).2.GetDB kA2 kS2 a b =
      (ResultStatusCode_OK, some v) := by
  refine ⟨?_, ?_⟩
  · simp [ExportFuncs.SetDB, hk, hv, hset]
  · simp [ExportFuncs.SetDB, ExportFuncs.GetDB, hk, hv, hset, hk2,
      mapLoad_store_self, hcopy]

/-- C8 witness: key `[7, 8]` (read at address 0), value `[1]` (read at
address 2). -/
theorem claim_C8_set_get_db_roundtrip_witness :
    (efRoundTrip.SetDB 0 4 2 1).1 = ResultStatusCode_OK ∧
    (efRoundTrip.SetDB 0 4 2 1).2.GetDB 0 4 9 9 =
      (ResultStatusCode_OK, some [1]) :=
  claim_C8_set_get_db_roundtrip efRoundTrip 0 4 2 1 0 4 9 9 [7, 8] [1]
    rfl rfl rfl rfl (fun _ _ _ => rfl)

/-- C1: for every `OnEventReceived` call that returns after passing
authentication and publisher resolution, the number of entries in the
returned `WasmResults` equals the number of strategies matched by the
resolver, counting the synthetic `{code: -1, errMsg: "instance not
found"}` entries produced for matched instances absent from the
registry.  The totality hypothesis on `HandleEvent` is modelled from
the spec: the instance implementation is not in the extracted sources,
and the spec has every invocation yield a result (a `NoInstance` result
when the instance is not `STARTED`). -/
theorem claim_C1_result_count (d : DispatchDeps) (pn : String) (r : Event)
    (handlers : List InstanceHandler)
    (hauth : publisherVerification d r = none)
    (hpub : r.header.pubId = "" ∨
      ∃ pb, d.getPublisher r.header.pubId pn = Except.ok pb)
    (hres : d.findStrategyInstances pn (effectiveEventType r) =
      Except.ok handlers)
    (htotal : ∀ id c, d.getConsumer id = some c →
      ∀ hdl p, (c.handleEvent hdl p).isSome) :
    (OnEventReceived d pn r).1.wasmResults.length = handlers.length := by
  have hlen : (dispatchResults d handlers r.payload).reduceOption.length
      = handlers.length := by
    rw [reduceOption_length_of_isSome]
    · simp [dispatchResults]
    · intro x hx
      simp only [dispatchResults, List.mem_map] at hx
      obtain ⟨vv, _, rfl⟩ := hx
      cases hc : d.getConsumer vv.instanceID with
      | none => simp
      | some c => simpa using htotal _ _ hc vv.handler r.payload
  unfold OnEventReceived onEventCore
  rw [hauth]
  rcases hpub with hemp | ⟨pb, hpb⟩
  · simp [hemp, hres, hlen]
  · by_cases hne : r.header.pubId = ""
    · simp [hne, hres, hlen]
    · simp [hne, hpb, hres, hlen]

/-- C1 witness: two strategies match, neither instance is registered,
and the result holds exactly two (synthetic) entries. -/
theorem claim_C1_result_count_witness :
    (OnEventReceived dFanOut "p" evFanOut).1.wasmResults.length = 2 :=
  claim_C1_result_count dFanOut "p" evFanOut [⟨11, "start"⟩, ⟨12, "start"⟩]
    rfl (Or.inr ⟨⟨9, "pub"⟩, rfl⟩) rfl
    (fun _ _ hc => by simp [dFanOut] at hc)

/-- C2: evaluated at an event with a non-empty `pub_id` whose publisher
lookup fails, `OnEventReceived` returns a result whose `errMsg` is the
EMPTY string together with a nil error, and no handler is invoked —
the lookup error is bound to a fresh variable `e` and the naked
`return` skips the deferred `ErrMsg` assignment, contradicting the
claimed non-empty `err_msg`. -/
theorem claim_C2_publisher_miss_bug :
    OnEventReceived dPubMiss "p" evFanOut =
      ({ projectName := "p", pubID := 0, pubName := "", eventID := "e1",
         errMsg := "", wasmResults := [] }, none) ∧
    "" ≠ "publisher not found" := ⟨rfl, by decide⟩

/-- C3 counterexample: an event with an empty token is rejected with
the generic error `"message token is invalid"`, which is not the
`InvalidAuthValue` status error. -/
theorem claim_C3_counterexample :
    (OnEventReceived dAuth "p" evEmptyToken).2 =
      some (Err.msg "message token is invalid") ∧
    Err.msg "message token is invalid" ≠ Err.invalidAuthValue :=
  ⟨rfl, by decide⟩

/-- C3 (amended): an event whose token is empty is rejected with the
generic error `"message token is invalid"`, and an event whose token
fails to parse under the project's signing key is rejected with the
parse error itself (`InvalidAuthValue` is reserved for a parsed claim
whose payload is not a string); in both cases no handler is invoked
and `WasmResults` is empty. -/
theorem claim_C3_auth_reject (d : DispatchDeps) (pn : String) (r : Event) :
    (r.header.token = "" →
      (OnEventReceived d pn r).2 = some (Err.msg "message token is invalid") ∧
      (OnEventReceived d pn r).1.errMsg = "message token is invalid" ∧
      (OnEventReceived d pn r).1.wasmResults = []) ∧
    (∀ e, r.header.token ≠ "" →
      d.parseToken r.header.token = Except.error e →
      (OnEventReceived d pn r).2 = some e ∧
      (OnEventReceived d pn r).1.errMsg = e.errorString ∧
      (OnEventReceived d pn r).1.wasmResults = []) := by
  constructor
  · intro htok
    have hv : publisherVerification d r =
        some (.msg "message token is invalid") := by
      simp [publisherVerification, htok]
    simp [OnEventReceived, onEventCore, hv, Err.errorString]
  · intro e htok hparse
    have hv : publisherVerification d r = some e := by
      simp [publisherVerification, htok, hparse]
    simp [OnEventReceived, onEventCore, hv]

/-- C3 witness: the concrete empty-token event. -/
theorem claim_C3_auth_reject_witness :
    (OnEventReceived dAuth "p" evEmptyToken).2 =
      some (Err.msg "message token is invalid") ∧
    (OnEventReceived dAuth "p" evEmptyToken).1.wasmResults = [] := by
  obtain ⟨h1, _⟩ := claim_C3_auth_reject dAuth "p" evEmptyToken
  obtain ⟨a, _, c⟩ := h1 rfl
  exact ⟨a, c⟩

/-- C9: for every `api_call` task whose original request lacks the
`eventType` header (under any capitalization), `ProcessTask` returns an
error marked non-retryable (`SkipRetry`) and enqueues no `api_result`
task. -/
theorem claim_C9_missing_eventType (d : ProcessorDeps) (tp : Bytes)
    (payload : ApiCallPayload) (apiReq : HttpRequest)
    (h1 : d.unmarshalPayload tp = some payload)
    (h2 : d.unmarshalRequest payload.data = some apiReq)
    (h3 : d.newRequestOK apiReq.method apiReq.url = true)
    (h4 : ∀ p ∈ apiReq.header, lowerKey p.1 ≠ "eventtype") :
    ProcessTask d tp = (.skipRetry "miss eventType", []) := by
  have hget : headerGet apiReq.header "eventType" = "" := by
    have hnone : mapLoad apiReq.header (canonicalMIMEHeaderKey "eventType")
        = none := by
      apply mapLoad_eq_none_of_forall_ne
      intro p hp he
      exact h4 p hp (by rw [he]; decide)
    simp [headerGet, hnone]
  simp [ProcessTask, h1, h2, h3, hget]

/-- C9 witness: a decodable task whose request carries only a `Foo`
header. -/
theorem claim_C9_missing_eventType_witness :
    ProcessTask dNoEventType [0] = (.skipRetry "miss eventType", []) :=
  claim_C9_missing_eventType dNoEventType [0] ⟨"prj", [1]⟩
    ⟨"GET", "http:", [("Foo", ["bar"])], []⟩ rfl rfl rfl (by decide)

end W3b
